import Mathlib

/-!
Shallow embedding of the note-taking service (Flask app: `app/notes/services.py`,
`app/services/user_service.py`, `app/models/note.py`) and proofs of the spec's
claims about it.

The content payload of a note is validated with Python's `json.loads`; the
first part of this file models the acceptance language of that parser
(CPython's `json` module with default flags: RFC 8259 JSON extended with the
constants `NaN`, `Infinity` and `-Infinity`, strict strings, whitespace =
space, tab, LF, CR).
-/

namespace FlaskNotes

/-- The four whitespace characters Python's `json` module skips
(`WHITESPACE = re.compile(r'[ \t\n\r]*')`). -/
def isJsonWs (c : Char) : Bool :=
  c = ' ' || c = '\t' || c = '\n' || c = '\r'

/-- Drop leading JSON whitespace. -/
def skipWs : List Char → List Char
  | [] => []
  | c :: cs => if isJsonWs c then skipWs cs else c :: cs

def isDigitCh (c : Char) : Bool := '0' ≤ c && c ≤ '9'

def isHexCh (c : Char) : Bool :=
  isDigitCh c || ('a' ≤ c && c ≤ 'f') || ('A' ≤ c && c ≤ 'F')

/-- Drop a run of ASCII digits. -/
def dropDigits : List Char → List Char
  | [] => []
  | c :: cs => if isDigitCh c then dropDigits cs else c :: cs

/-- `true` when the list starts with at least one ASCII digit. -/
def headIsDigit : List Char → Bool
  | [] => false
  | c :: _ => isDigitCh c

/-- Consume the expected literal characters (used for `true`, `false`, `null`,
`NaN`, `Infinity`, `-Infinity`). -/
def expectChars : List Char → List Char → Option (List Char)
  | [], cs => some cs
  | _ :: _, [] => none
  | e :: es, c :: cs => if c = e then expectChars es cs else none

/-- Body of a JSON string after the opening quote, per CPython `py_scanstring`
with `strict=True`: escapes `\" \\ \/ \b \f \n \r \t \uXXXX`, raw control
characters below U+0020 rejected.  Returns the input after the closing quote. -/
def parseStringBody : List Char → Option (List Char)
  | [] => none
  | '"' :: cs => some cs
  | '\\' :: [] => none
  | '\\' :: e :: cs =>
    if e = '"' || e = '\\' || e = '/' || e = 'b' || e = 'f' ||
        e = 'n' || e = 'r' || e = 't' then
      parseStringBody cs
    else if e = 'u' then
      match cs with
      | h1 :: h2 :: h3 :: h4 :: cs2 =>
        if isHexCh h1 && isHexCh h2 && isHexCh h3 && isHexCh h4 then
          parseStringBody cs2
        else none
      | _ => none
    else none
  | c :: cs => if c.toNat < 0x20 then none else parseStringBody cs

/-- The integer part of a JSON number: `0` or a nonzero digit followed by
digits (`(?:0|[1-9]\d*)` in CPython's `NUMBER_RE`). -/
def parseIntPart : List Char → Option (List Char)
  | [] => none
  | c :: cs =>
    if c = '0' then some cs
    else if '1' ≤ c && c ≤ '9' then some (dropDigits cs)
    else none

/-- Optional fraction part `(\.\d+)?`: consumed only when a dot is followed by
at least one digit, otherwise nothing is consumed (the regex simply stops). -/
def parseFracPart (cs : List Char) : List Char :=
  match cs with
  | '.' :: rest => if headIsDigit rest then dropDigits rest else cs
  | _ => cs

/-- Optional exponent part `([eE][-+]?\d+)?`, same greedy-optional shape. -/
def parseExpPart (cs : List Char) : List Char :=
  match cs with
  | e :: rest =>
    if e = 'e' || e = 'E' then
      match rest with
      | s :: rest2 =>
        if s = '+' || s = '-' then
          if headIsDigit rest2 then dropDigits rest2 else cs
        else if headIsDigit rest then dropDigits rest else cs
      | [] => cs
    else cs
  | [] => cs

/-- A JSON number per CPython's `NUMBER_RE`:
`(-?(?:0|[1-9]\d*))(\.\d+)?([eE][-+]?\d+)?`. -/
def parseNumber (cs : List Char) : Option (List Char) :=
  let cs1 := match cs with
    | '-' :: rest => rest
    | _ => cs
  match parseIntPart cs1 with
  | none => none
  | some cs2 => some (parseExpPart (parseFracPart cs2))

mutual

/-- One JSON value starting at the current position (no leading whitespace),
per CPython's `_scan_once`: string, object, array, `null`, `true`, `false`,
number, `NaN`, `Infinity`, `-Infinity`.  `fuel` bounds nesting depth; each
level of nesting consumes at least one input character before recursing, so
fuel `2 * length + 2` never causes a spurious rejection. -/
def parseValue : Nat → List Char → Option (List Char)
  | 0, _ => none
  | _ + 1, [] => none
  | fuel + 1, c :: cs =>
    if c = '"' then parseStringBody cs
    else if c = '{' then
      match skipWs cs with
      | '}' :: cs2 => some cs2
      | cs2 => parseMembers fuel cs2
    else if c = '[' then
      match skipWs cs with
      | ']' :: cs2 => some cs2
      | cs2 => parseElems fuel cs2
    else if c = 't' then expectChars ['r', 'u', 'e'] cs
    else if c = 'f' then expectChars ['a', 'l', 's', 'e'] cs
    else if c = 'n' then expectChars ['u', 'l', 'l'] cs
    else if c = 'N' then expectChars ['a', 'N'] cs
    else if c = 'I' then expectChars ['n', 'f', 'i', 'n', 'i', 't', 'y'] cs
    else if c = '-' then
      match cs with
      | 'I' :: cs2 => expectChars ['n', 'f', 'i', 'n', 'i', 't', 'y'] cs2
      | _ => parseNumber (c :: cs)
    else if isDigitCh c then parseNumber (c :: cs)
    else none

/-- Members of a JSON object after `{` and whitespace, when the object is not
empty: `"key" : value` pairs separated by `,`, closed by `}` (CPython
`JSONObject`). -/
def parseMembers : Nat → List Char → Option (List Char)
  | 0, _ => none
  | fuel + 1, cs =>
    match cs with
    | '"' :: cs1 =>
      match parseStringBody cs1 with
      | none => none
      | some cs2 =>
        match skipWs cs2 with
        | ':' :: cs3 =>
          match parseValue fuel (skipWs cs3) with
          | none => none
          | some cs4 =>
            match skipWs cs4 with
            | ',' :: cs5 => parseMembers fuel (skipWs cs5)
            | '}' :: cs5 => some cs5
            | _ => none
        | _ => none
    | _ => none

/-- Elements of a JSON array after `[` and whitespace, when the array is not
empty: values separated by `,`, closed by `]` (CPython `JSONArray`). -/
def parseElems : Nat → List Char → Option (List Char)
  | 0, _ => none
  | fuel + 1, cs =>
    match parseValue fuel cs with
    | none => none
    | some cs1 =>
      match skipWs cs1 with
      | ',' :: cs2 => parseElems fuel (skipWs cs2)
      | ']' :: cs2 => some cs2
      | _ => none

end

/-- `jsonParses s = true` iff Python's `json.loads(s)` succeeds: leading
whitespace, one JSON value, trailing whitespace, end of input
(`JSONDecoder.decode`). -/
def jsonParses (s : String) : Bool :=
  let cs := skipWs s.toList
  match parseValue (2 * cs.length + 2) cs with
  | none => false
  | some rest => skipWs rest = []

/-- UTF-8 encoded size of one code point, as `len(ch.encode('utf-8'))`. -/
def utf8Bytes (c : Char) : Nat :=
  if c.toNat < 0x80 then 1
  else if c.toNat < 0x800 then 2
  else if c.toNat < 0x10000 then 3
  else 4

/-- `len(s.encode('utf-8'))`: UTF-8 byte length of a string. -/
def utf8Len (s : String) : Nat :=
  (s.toList.map utf8Bytes).sum

/-- `NoteService.MAX_CONTENT_SIZE = 2 * 1024 * 1024`. -/
def MAX_CONTENT_SIZE : Nat := 2 * 1024 * 1024

/-- The `ValueError`s raised by `NoteService`, by message:
`malformedContent` = "Invalid JSON content", `contentTooLarge` = "Content
exceeds maximum size of 2 MB", `notFound` = "Note not found". -/
inductive NoteErr where
  | malformedContent
  | contentTooLarge
  | notFound
deriving DecidableEq, Repr

/-- The validation block shared verbatim by `NoteService.create_note`
(services.py lines 29–37) and `NoteService.update_note` (lines 94–102):
first `json.loads(content_delta)` (raising "Invalid JSON content" on
`JSONDecodeError`), then the UTF-8 size check against `MAX_CONTENT_SIZE`. -/
def validateContent (content_delta : String) : Except NoteErr Unit :=
  if !jsonParses content_delta then .error .malformedContent
  else if utf8Len content_delta > MAX_CONTENT_SIZE then .error .contentTooLarge
  else .ok ()

/-- One row of the `notes` table (`app/models/note.py`).  `title` is the
string the service stores (`db.String(200)`, always set by the service),
`share_token` is nullable, `is_shared` defaults to false and `share_token`
to NULL.  Timestamps are modelled as abstract instants (`Nat`); the wall
clock at which a mutation runs is passed to each operation as `now`. -/
structure Note where
  id : Nat
  user_id : Nat
  title : String
  content_delta : String
  is_shared : Bool := false
  share_token : Option String := none
  created_at : Nat
  updated_at : Nat
deriving DecidableEq, Repr

/-- The notes table plus the autoincrement counter for primary keys. -/
structure NoteStore where
  notes : List Note
  nextId : Nat
deriving DecidableEq, Repr

/-- `NoteService.get_note_by_id`: `db.session.get(Note, note_id)` — primary
key lookup. -/
def get_note_by_id (s : NoteStore) (note_id : Nat) : Option Note :=
  s.notes.find? (fun n => n.id == note_id)

/-- SQLAlchemy's flush emits an UPDATE for a row (and hence fires the
`onupdate=datetime.utcnow` default of `updated_at`) only when some column's
new value differs from its committed value (`History.from_object_attribute`
compares with `==`; `_collect_update_commands` skips rows with no net
change).  `rowChanged old new` is that net-change test over the columns the
service assigns. -/
def touchUpdatedAt (changed : Bool) (old now : Nat) : Nat :=
  if changed then now else old

/-- `NoteService.create_note(user_id, title, content_delta)`: validates the
JSON, then the size, then inserts a fresh row with `is_shared`/`share_token`
at their column defaults and both timestamps set by `datetime.utcnow`.  On a
raised `ValueError` the session is untouched, so the store component is the
input store. -/
def create_note (s : NoteStore) (user_id : Nat) (title content_delta : String)
    (now : Nat) : NoteStore × Except NoteErr Note :=
  match validateContent content_delta with
  | .error e => (s, .error e)
  | .ok _ =>
    let note : Note :=
      { id := s.nextId, user_id := user_id, title := title,
        content_delta := content_delta, is_shared := false, share_token := none,
        created_at := now, updated_at := now }
    ({ notes := s.notes ++ [note], nextId := s.nextId + 1 }, .ok note)

/-- A committed UPDATE of a single row as later queries see it: the row
with primary key `note_id` holds the new column values `n'`. -/
def replaceNote (s : NoteStore) (note_id : Nat) (n' : Note) : NoteStore :=
  { s with notes := s.notes.map fun n => if n.id == note_id then n' else n }

/-- `NoteService.update_note(note_id, title, content_delta)`: looks the note
up (raising "Note not found"), re-runs the same validation as create, then
assigns `note.title` and `note.content_delta` and commits.  `updated_at`
refreshes through the `onupdate` default, i.e. only when the assignment is a
net change (see `touchUpdatedAt`). -/
def update_note (s : NoteStore) (note_id : Nat) (title content_delta : String)
    (now : Nat) : NoteStore × Except NoteErr Note :=
  match get_note_by_id s note_id with
  | none => (s, .error .notFound)
  | some note =>
    match validateContent content_delta with
    | .error e => (s, .error e)
    | .ok _ =>
      let changed := !(note.title == title && note.content_delta == content_delta)
      let note' : Note :=
        { note with title := title, content_delta := content_delta,
                    updated_at := touchUpdatedAt changed note.updated_at now }
      (replaceNote s note_id note', .ok note')

/-- `NoteService.delete_note(note_id)`: looks the note up (raising
"Note not found"), then `db.session.delete(note)` — a hard delete. -/
def delete_note (s : NoteStore) (note_id : Nat) : NoteStore × Except NoteErr Bool :=
  match get_note_by_id s note_id with
  | none => (s, .error .notFound)
  | some _ =>
    ({ s with notes := s.notes.filter fun n => !(n.id == note_id) }, .ok true)

/-- `NoteService.share_note(note_id)`: looks the note up (raising
"Note not found"), sets `is_shared = True` and `share_token =
secrets.token_urlsafe(32)`, commits, and returns the token.  The random
token is a parameter of the model (`token`); its freshness is a hypothesis
of the theorems that need it, reflecting the 256-bit entropy of
`secrets.token_urlsafe(32)` and the UNIQUE constraint on the column. -/
def share_note (s : NoteStore) (note_id : Nat) (token : String)
    (now : Nat) : NoteStore × Except NoteErr String :=
  match get_note_by_id s note_id with
  | none => (s, .error .notFound)
  | some note =>
    let changed := !(note.is_shared == true && note.share_token == some token)
    let note' : Note :=
      { note with is_shared := true, share_token := some token,
                  updated_at := touchUpdatedAt changed note.updated_at now }
    (replaceNote s note_id note', .ok token)

/-- `NoteService.unshare_note(note_id)`: looks the note up (raising
"Note not found"), sets `is_shared = False` and `share_token = None`,
commits, returns `True`. -/
def unshare_note (s : NoteStore) (note_id : Nat)
    (now : Nat) : NoteStore × Except NoteErr Bool :=
  match get_note_by_id s note_id with
  | none => (s, .error .notFound)
  | some note =>
    let changed := !(note.is_shared == false && note.share_token == none)
    let note' : Note :=
      { note with is_shared := false, share_token := none,
                  updated_at := touchUpdatedAt changed note.updated_at now }
    (replaceNote s note_id note', .ok true)

/-- The filter of `NoteService.get_note_by_token`:
`filter_by(share_token=share_token, is_shared=True)`.  SQL equality against
a NULL `share_token` is not satisfied, which `Option` equality mirrors. -/
def tokenMatch (share_token : String) (n : Note) : Bool :=
  n.share_token == some share_token && n.is_shared == true

/-- `NoteService.get_note_by_token(share_token)`:
`Note.query.filter_by(share_token=share_token, is_shared=True).first()`. -/
def get_note_by_token (s : NoteStore) (share_token : String) : Option Note :=
  s.notes.find? (tokenMatch share_token)

/-- The `ValueError`s raised by `UserService.create_user`, by message:
`duplicateEmail` = "Email already registered", `invalidEmail` = "Invalid
email format", `weakPassword` = "Password must be at least 6 characters". -/
inductive UserErr where
  | duplicateEmail
  | invalidEmail
  | weakPassword
deriving DecidableEq, Repr

/-- One row of the `users` table.  Modelled from the spec: the `User` model
file is not under `src/` (only `user_service.py` uses it); per the spec a
User carries `id`, unique `email`, `password_hash` ("derived from a
plaintext password at creation/update; plaintext is never stored") and
`created_at`. -/
structure User where
  id : Nat
  email : String
  password_hash : String
  created_at : Nat
deriving DecidableEq, Repr

/-- The users table plus the autoincrement counter. -/
structure UserStore where
  users : List User
  nextId : Nat
deriving DecidableEq, Repr

/-- Python's `c in s` on a one-character needle: the character occurs among
the string's characters. -/
def strHasChar (s : String) (c : Char) : Bool :=
  s.toList.contains c

/-- `UserService.get_user_by_email`: `User.query.filter_by(email=email).first()`. -/
def get_user_by_email (s : UserStore) (email : String) : Option User :=
  s.users.find? (fun u => u.email == email)

/-- `UserService.create_user(email, password)`: duplicate check first, then
email format (`not email or '@' not in email`), then password strength
(`not password or len(password) < 6`), then `user.set_password(password)`
and insert.  `set_password` is modelled from the spec ("password is one-way
hashed before storage"): the hashing primitive is the abstract parameter
`hashPw`, and the stored row holds `hashPw password`, never `password`. -/
def create_user (hashPw : String → String) (s : UserStore)
    (email password : String) (now : Nat) : UserStore × Except UserErr User :=
  if (get_user_by_email s email).isSome then (s, .error .duplicateEmail)
  else if email == "" || !(strHasChar email '@') then (s, .error .invalidEmail)
  else if password == "" || password.length < 6 then (s, .error .weakPassword)
  else
    let user : User :=
      { id := s.nextId, email := email, password_hash := hashPw password,
        created_at := now }
    ({ users := s.users ++ [user], nextId := s.nextId + 1 }, .ok user)

/-- The sharing invariant of the data model: `share_token` is non-null iff
`is_shared` is true, for every row. -/
def shareInv (s : NoteStore) : Prop :=
  ∀ n ∈ s.notes, (n.share_token ≠ none ↔ n.is_shared = true)

/-- The UNIQUE constraint on `notes.share_token`: two rows carrying the same
non-null token are the same row. -/
def tokensUnique (s : NoteStore) : Prop :=
  ∀ m₁ ∈ s.notes, ∀ m₂ ∈ s.notes,
    m₁.share_token = m₂.share_token → m₁.share_token ≠ none → m₁ = m₂

/-- The spec's wording of the content format, for the refinement comparison
of C1: "a JSON-like object containing an ordered list of text-insertion
operations".  Read as weakly as possible: the payload parses as JSON *and*
the value is an object (its first non-whitespace character opens one); the
inner ops-list structure is not even demanded. -/
def specStructuredTextDoc (s : String) : Bool :=
  jsonParses s &&
    match skipWs s.toList with
    | c :: _ => c = '{'
    | [] => false

/-- The already-shared sample note for the C3 witness. -/
def noteW3 : Note :=
  { id := 1, user_id := 1, title := "a", content_delta := "0",
    is_shared := true, share_token := some "OLD",
    created_at := 0, updated_at := 0 }

/-- The sample store holding `noteW3`. -/
def storeW3 : NoteStore := ⟨[noteW3], 2⟩

/-- The shared sample note for the C4 witness. -/
def noteW4 : Note :=
  { id := 1, user_id := 1, title := "a", content_delta := "0",
    is_shared := true, share_token := some "T",
    created_at := 0, updated_at := 0 }

/-- The sample store holding `noteW4`. -/
def storeW4 : NoteStore := ⟨[noteW4], 2⟩

/-- The stored note for the C6 counterexample: title "a", content "0",
`updated_at` = 5. -/
def noteW6 : Note :=
  { id := 1, user_id := 1, title := "a", content_delta := "0",
    is_shared := false, share_token := none, created_at := 3, updated_at := 5 }

/-- The sample store holding `noteW6`. -/
def storeW6 : NoteStore := ⟨[noteW6], 2⟩

/-- A one-note sample store for the deletion witness. -/
def noteW7 : Note :=
  { id := 1, user_id := 1, title := "a", content_delta := "0",
    created_at := 0, updated_at := 0 }

/-- The sample store holding `noteW7`. -/
def storeW7 : NoteStore := ⟨[noteW7], 2⟩

/-- The targeted note for the C9 witness. -/
def noteW9 : Note :=
  { id := 1, user_id := 8, title := "a", content_delta := "0",
    created_at := 3, updated_at := 3 }

/-- A second, untargeted note for the C9 witness. -/
def noteW9b : Note :=
  { id := 2, user_id := 8, title := "b", content_delta := "1",
    created_at := 4, updated_at := 4 }

/-- The two-note sample store for the C9 witness. -/
def storeW9 : NoteStore := ⟨[noteW9, noteW9b], 3⟩

/-- The shared note for the C10 witness. -/
def noteW10 : Note :=
  { id := 1, user_id := 1, title := "a", content_delta := "0",
    is_shared := true, share_token := some "T",
    created_at := 0, updated_at := 0 }

/-- The sample store holding `noteW10`. -/
def storeW10 : NoteStore := ⟨[noteW10], 2⟩

/-- Replacing the row with primary key `id` by a row `n'` that keeps that key
commutes with the primary-key lookup. -/
lemma find?_map_replace_id (l : List Note) (id : Nat) (n n' : Note)
    (hid : n'.id = id)
    (h : l.find? (fun m => m.id == id) = some n) :
    (l.map fun m => if m.id == id then n' else m).find?
      (fun m => m.id == id) = some n' := by
  rw [List.find?_map]
  have hcomp : ((fun m : Note => m.id == id) ∘
      fun m => if m.id == id then n' else m) = fun m : Note => m.id == id := by
    funext m
    by_cases hm : m.id = id <;> simp [hm, hid]
  rw [hcomp, h]
  have hn : n.id = id := by simpa using List.find?_some h
  simp [hn]

/-- After replacing the row with key `id` by `n'`, a token lookup that used
to return a row with key `id` returns `n'`, provided `n'` still matches. -/
lemma find?_tok_map_replace (l : List Note) (id : Nat) (t : String) (n n' : Note)
    (hn : l.find? (tokenMatch t) = some n) (hnid : n.id = id)
    (hn' : tokenMatch t n' = true) :
    (l.map fun m => if m.id == id then n' else m).find? (tokenMatch t) =
      some n' := by
  induction l with
  | nil => simp at hn
  | cons a l ih =>
    by_cases hpa : tokenMatch t a = true
    · have ha : a = n := by
        rw [List.find?_cons_of_pos _ hpa] at hn
        exact Option.some.injEq .. ▸ hn.symm ▸ rfl
      subst ha
      simp only [List.map_cons]
      rw [if_pos (by simp [hnid])]
      exact List.find?_cons_of_pos _ hn'
    · rw [List.find?_cons_of_neg _ hpa] at hn
      by_cases hida : a.id = id
      · simp only [List.map_cons]
        rw [if_pos (by simp [hida])]
        exact List.find?_cons_of_pos _ hn'
      · simp only [List.map_cons]
        rw [if_neg (by simp [hida])]
        rw [List.find?_cons_of_neg _ hpa]
        exact ih hn

/-- Primary-key lookup after a committed single-row UPDATE that keeps the
key. -/
lemma get_note_by_id_replaceNote (s : NoteStore) (id : Nat) (n n' : Note)
    (hid : n'.id = id) (h : get_note_by_id s id = some n) :
    get_note_by_id (replaceNote s id n') id = some n' :=
  find?_map_replace_id s.notes id n n' hid h

/-- Token lookup after a committed single-row UPDATE: if it used to return
the row with primary key `id` and the new column values still match, it now
returns the new values. -/
lemma get_note_by_token_replaceNote_some (s : NoteStore) (id : Nat)
    (t : String) (n n' : Note)
    (hn : get_note_by_token s t = some n) (hnid : n.id = id)
    (hn' : tokenMatch t n' = true) :
    get_note_by_token (replaceNote s id n') t = some n' :=
  find?_tok_map_replace s.notes id t n n' hn hnid hn'

/-- Token lookup after a committed single-row UPDATE: if the token `t`
belonged to the updated row (by the UNIQUE constraint to no other), and the
new column values no longer match `t`, the lookup comes back empty. -/
lemma get_note_by_token_replaceNote_none (s : NoteStore) (id : Nat)
    (t : String) (n n' : Note)
    (hfind : get_note_by_id s id = some n)
    (huniq : tokensUnique s)
    (ht : n.share_token = some t)
    (hn' : tokenMatch t n' = false) :
    get_note_by_token (replaceNote s id n') t = none := by
  have hnid : n.id = id := by simpa using List.find?_some hfind
  apply List.find?_eq_none.mpr
  intro x hx
  simp only [replaceNote, List.mem_map] at hx
  obtain ⟨m, hm, rfl⟩ := hx
  by_cases hid : (m.id == id) = true
  · simp [hid, hn']
  · simp only [if_neg hid]
    intro hmatch
    have hmt : m.share_token = some t := by
      have := (Bool.and_eq_true .. ▸ hmatch).1
      simpa using this
    have hmn : m = n :=
      huniq m hm n (List.mem_of_find?_eq_some hfind)
        (hmt.trans ht.symm) (by simp [hmt])
    exact hid (by simp [hmn, hnid])

/-- The successful branch of `share_note`, written out. -/
lemma share_note_ok (s : NoteStore) (id : Nat) (tok : String) (now : Nat)
    (n : Note) (hfind : get_note_by_id s id = some n) :
    share_note s id tok now =
      (replaceNote s id
        { n with is_shared := true, share_token := some tok,
                 updated_at := touchUpdatedAt
                   (!(n.is_shared == true && n.share_token == some tok))
                   n.updated_at now }, .ok tok) := by
  simp [share_note, hfind]

/-- The successful branch of `unshare_note`, written out. -/
lemma unshare_note_ok (s : NoteStore) (id : Nat) (now : Nat)
    (n : Note) (hfind : get_note_by_id s id = some n) :
    unshare_note s id now =
      (replaceNote s id
        { n with is_shared := false, share_token := none,
                 updated_at := touchUpdatedAt
                   (!(n.is_shared == false && n.share_token == none))
                   n.updated_at now }, .ok true) := by
  simp [unshare_note, hfind]

/-- The successful branch of `update_note`, written out. -/
lemma update_note_ok (s : NoteStore) (id : Nat) (title C : String)
    (now : Nat) (n : Note) (hfind : get_note_by_id s id = some n)
    (hvalid : validateContent C = .ok ()) :
    update_note s id title C now =
      (replaceNote s id
        { n with title := title, content_delta := C,
                 updated_at := touchUpdatedAt
                   (!(n.title == title && n.content_delta == C))
                   n.updated_at now },
       .ok { n with title := title, content_delta := C,
                    updated_at := touchUpdatedAt
                      (!(n.title == title && n.content_delta == C))
                      n.updated_at now }) := by
  simp [update_note, hfind, hvalid]

-- C1 ---------------------------------------------------------------------


/-- C1 counterexample: the payload `"3"` is accepted by the service's
validation (it is valid JSON and tiny) although it does not parse as the
structured-text format of the claim — it is a bare number, not a JSON-like
object containing a list of text-insertion operations — so the claimed
equivalence fails at `C = "3"`: `create_note` happily stores it. -/
theorem create_note_accepts_bare_json_number :
    validateContent "3" = Except.ok () ∧
    specStructuredTextDoc "3" = false ∧
    (create_note ⟨[], 0⟩ 1 "t" "3" 0).2 =
      Except.ok { id := 0, user_id := 1, title := "t", content_delta := "3",
                  is_shared := false, share_token := none,
                  created_at := 0, updated_at := 0 } :=
  ⟨rfl, by decide, rfl⟩

/-- C1 (amended): content validation, as performed by `create_note` and
`update_note`, succeeds iff the payload parses as JSON — any JSON value;
the object-of-insert-operations structure is not checked — and its UTF-8
byte length is at most 2,097,152; otherwise it fails with MalformedContent
(does not parse as JSON, checked first) or ContentTooLarge (parses but over
the budget). -/
theorem noteContentValidation_iff (C : String) (s : NoteStore)
    (uid now : Nat) (title : String) :
    (validateContent C = .ok () ↔
      jsonParses C = true ∧ utf8Len C ≤ MAX_CONTENT_SIZE)
    ∧ (validateContent C = .error .malformedContent ↔ jsonParses C = false)
    ∧ (validateContent C = .error .contentTooLarge ↔
        jsonParses C = true ∧ MAX_CONTENT_SIZE < utf8Len C)
    ∧ ((∃ n, (create_note s uid title C now).2 = .ok n) ↔
        validateContent C = .ok ())
    ∧ (∀ e, (create_note s uid title C now).2 = .error e ↔
        validateContent C = .error e)
    ∧ (∀ id, (∃ n, (update_note s id title C now).2 = .ok n) ↔
        ((get_note_by_id s id).isSome = true ∧ validateContent C = .ok ()))
    ∧ (∀ id e, (update_note s id title C now).2 = .error e ↔
        ((get_note_by_id s id = none ∧ e = .notFound) ∨
         ((get_note_by_id s id).isSome = true ∧ validateContent C = .error e))) := by
  have hupdate : ∀ id, (∀ e, (update_note s id title C now).2 = .error e ↔
      ((get_note_by_id s id = none ∧ e = .notFound) ∨
       ((get_note_by_id s id).isSome = true ∧ validateContent C = .error e))) ∧
      ((∃ n, (update_note s id title C now).2 = .ok n) ↔
        ((get_note_by_id s id).isSome = true ∧ validateContent C = .ok ())) := by
    intro id
    cases hg : get_note_by_id s id with
    | none => simp [update_note, hg, eq_comm]
    | some m =>
      cases hv : validateContent C with
      | error e' => simp [update_note, hg, hv]
      | ok u => cases u; simp [update_note, hg, hv]
  by_cases hj : jsonParses C
  · by_cases hsz : utf8Len C ≤ MAX_CONTENT_SIZE
    · have hv : validateContent C = .ok () := by
        simp [validateContent, hj, Nat.not_lt.mpr hsz]
      refine ⟨⟨fun _ => ⟨hj, hsz⟩, fun _ => hv⟩, by simp [hv, hj],
        by simp [hv, Nat.not_lt.mpr hsz],
        by simp [create_note, hv], by simp [create_note, hv],
        fun id => (hupdate id).2, fun id => (hupdate id).1⟩
    · have hv : validateContent C = .error .contentTooLarge := by
        simp [validateContent, hj, Nat.lt_of_not_le hsz]
      refine ⟨by simp [hv, hsz], by simp [hv, hj], by simp [hv, hj, Nat.lt_of_not_le hsz],
        by simp [create_note, hv], by simp [create_note, hv],
        fun id => (hupdate id).2, fun id => (hupdate id).1⟩
  · have hv : validateContent C = .error .malformedContent := by
      simp [validateContent, hj]
    refine ⟨by simp [hv, hj], by simp [hv, hj], by simp [hv, hj],
      by simp [create_note, hv], by simp [create_note, hv],
      fun id => (hupdate id).2, fun id => (hupdate id).1⟩

-- C2 ---------------------------------------------------------------------

/-- C2: in every state satisfying it, the invariant "`share_token` is
non-null iff `is_shared` is true" is preserved by every `NoteService`
operation — `create_note`, `update_note`, `share_note`, `unshare_note` and
`delete_note` — on success as well as on failure (where the store is
untouched). -/
theorem shareInv_preserved (s : NoteStore) (h : shareInv s) :
    (∀ uid title C now, shareInv (create_note s uid title C now).1)
    ∧ (∀ id title C now, shareInv (update_note s id title C now).1)
    ∧ (∀ id tok now, shareInv (share_note s id tok now).1)
    ∧ (∀ id now, shareInv (unshare_note s id now).1)
    ∧ (∀ id, shareInv (delete_note s id).1) := by
  refine ⟨?_, ?_, ?_, ?_, ?_⟩
  · intro uid title C now
    cases hv : validateContent C with
    | error e => simpa [create_note, hv] using h
    | ok u =>
      cases u
      intro n hn
      simp [create_note, hv] at hn
      rcases hn with hn | rfl
      · exact h n hn
      · simp
  · intro id title C now
    cases hg : get_note_by_id s id with
    | none => simpa [update_note, hg] using h
    | some m =>
      cases hv : validateContent C with
      | error e => simpa [update_note, hg, hv] using h
      | ok u =>
        cases u
        intro n hn
        simp only [update_note, replaceNote, List.mem_map, hg, hv] at hn
        obtain ⟨m', hm', rfl⟩ := hn
        by_cases hid : (m'.id == id) = true
        · simpa [hid] using h m (List.mem_of_find?_eq_some hg)
        · simpa [hid] using h m' hm'
  · intro id tok now
    cases hg : get_note_by_id s id with
    | none => simpa [share_note, hg] using h
    | some m =>
      intro n hn
      simp only [share_note, replaceNote, List.mem_map, hg] at hn
      obtain ⟨m', hm', rfl⟩ := hn
      by_cases hid : (m'.id == id) = true
      · simp [hid]
      · simpa [hid] using h m' hm'
  · intro id now
    cases hg : get_note_by_id s id with
    | none => simpa [unshare_note, hg] using h
    | some m =>
      intro n hn
      simp only [unshare_note, replaceNote, List.mem_map, hg] at hn
      obtain ⟨m', hm', rfl⟩ := hn
      by_cases hid : (m'.id == id) = true
      · simp [hid]
      · simpa [hid] using h m' hm'
  · intro id
    cases hg : get_note_by_id s id with
    | none => simpa [delete_note, hg] using h
    | some m =>
      intro n hn
      simp only [delete_note, List.mem_filter, hg] at hn
      exact h n hn.1

/-- C2 witness: the invariant holds of the empty store and is carried through
a concrete `create_note`. -/
theorem shareInv_preserved_witness :
    shareInv (create_note ⟨[], 0⟩ 1 "t" "0" 0).1 :=
  (shareInv_preserved ⟨[], 0⟩ (by intro n hn; simp at hn)).1 1 "t" "0" 0

-- C3 ---------------------------------------------------------------------

/-- C3: on an existing note — here one that is already shared and holds
`oldTok` — `share_note` overwrites `share_token` with the freshly generated
token and returns it, and the previous token is invalidated at once:
`get_note_by_token oldTok` comes back empty after the re-share.  Freshness
of the generated token (no row carries it) stands in for the 256-bit
randomness of `secrets.token_urlsafe(32)`; `tokensUnique` is the UNIQUE
constraint of the `share_token` column. -/
theorem share_note_overwrites_token (s : NoteStore) (id : Nat)
    (tok oldTok : String) (now : Nat) (n : Note)
    (hfind : get_note_by_id s id = some n)
    (hold : n.share_token = some oldTok)
    (huniq : tokensUnique s)
    (hfresh : ∀ m ∈ s.notes, m.share_token ≠ some tok) :
    (share_note s id tok now).2 = .ok tok
    ∧ (∃ n', get_note_by_id (share_note s id tok now).1 id = some n'
        ∧ n'.share_token = some tok ∧ n'.is_shared = true)
    ∧ get_note_by_token (share_note s id tok now).1 oldTok = none := by
  have hnid : n.id = id := by simpa using List.find?_some hfind
  have hmem : n ∈ s.notes := List.mem_of_find?_eq_some hfind
  have hneq : oldTok ≠ tok := fun h => hfresh n hmem (h ▸ hold)
  have hneq' : tok ≠ oldTok := fun h => hneq h.symm
  rw [share_note_ok s id tok now n hfind]
  refine ⟨rfl, ⟨_, get_note_by_id_replaceNote s id n _ hnid hfind, rfl, rfl⟩, ?_⟩
  exact get_note_by_token_replaceNote_none s id oldTok n _ hfind huniq hold
    (by simp [tokenMatch, hneq'])

/-- A one-note store trivially satisfies the token UNIQUE constraint. -/
lemma tokensUnique_singleton (n : Note) (k : Nat) : tokensUnique ⟨[n], k⟩ := by
  intro m₁ h₁ m₂ h₂ _ _
  simp only [List.mem_singleton] at h₁ h₂
  rw [h₁, h₂]


/-- C3 witness: re-sharing the already-shared note 1 returns the fresh token
"NEW" and its old token "OLD" no longer resolves. -/
theorem share_note_overwrites_token_witness :
    (share_note storeW3 1 "NEW" 7).2 = .ok "NEW" ∧
    get_note_by_token (share_note storeW3 1 "NEW" 7).1 "OLD" = none :=
  ⟨(share_note_overwrites_token storeW3 1 "NEW" "OLD" 7 noteW3 rfl rfl
      (tokensUnique_singleton noteW3 2) (by decide)).1,
   (share_note_overwrites_token storeW3 1 "NEW" "OLD" 7 noteW3 rfl rfl
      (tokensUnique_singleton noteW3 2) (by decide)).2.2⟩

-- C4 ---------------------------------------------------------------------

/-- C4: `get_note_by_token t` returns a note only when that note has
`share_token` exactly `t` and `is_shared` true; it never returns a note with
`is_shared` false regardless of token equality; and after a successful
`unshare_note` the note's prior token no longer resolves (with the UNIQUE
constraint `tokensUnique` ruling out a second holder of the token). -/
theorem get_note_by_token_requires_shared (s : NoteStore) (t : String)
    (id now : Nat) (n : Note) :
    (∀ m, get_note_by_token s t = some m →
      m.share_token = some t ∧ m.is_shared = true)
    ∧ (∀ m ∈ s.notes, m.is_shared = false → get_note_by_token s t ≠ some m)
    ∧ (get_note_by_id s id = some n → n.share_token = some t →
        tokensUnique s →
        (unshare_note s id now).2 = .ok true ∧
        get_note_by_token (unshare_note s id now).1 t = none) := by
  refine ⟨?_, ?_, ?_⟩
  · intro m hm
    have h := List.find?_some hm
    simp only [tokenMatch, Bool.and_eq_true] at h
    exact ⟨by simpa using h.1, by simpa using h.2⟩
  · intro m _ hsh hcontra
    have h := List.find?_some hcontra
    simp [tokenMatch, hsh] at h
  · intro hfind ht huniq
    rw [unshare_note_ok s id now n hfind]
    exact ⟨rfl, get_note_by_token_replaceNote_none s id t n _ hfind huniq ht
      (by simp [tokenMatch])⟩


/-- C4 witness: in the sample store, looking note 1 up by its token "T"
yields a shared note carrying exactly that token, and after unsharing it the
token no longer resolves. -/
theorem get_note_by_token_requires_shared_witness :
    (noteW4.share_token = some "T" ∧ noteW4.is_shared = true) ∧
    ((unshare_note storeW4 1 9).2 = .ok true ∧
      get_note_by_token (unshare_note storeW4 1 9).1 "T" = none) :=
  ⟨(get_note_by_token_requires_shared storeW4 "T" 1 9 noteW4).1 noteW4 rfl,
   (get_note_by_token_requires_shared storeW4 "T" 1 9 noteW4).2.2 rfl rfl
     (tokensUnique_singleton noteW4 2)⟩

-- C5 ---------------------------------------------------------------------

/-- C5: mutations are atomic with their validation — whenever `create_note`
fails (MalformedContent or ContentTooLarge) or `update_note` fails
(NotFound, MalformedContent or ContentTooLarge), the store component of the
result is exactly the input store, so no note was added and every field of
every note — the targeted one included — is as it was: no partial write. -/
theorem failed_mutation_leaves_store (s : NoteStore) (uid id now : Nat)
    (title C : String) :
    (∀ e, (create_note s uid title C now).2 = .error e →
      (create_note s uid title C now).1 = s)
    ∧ (∀ e, (update_note s id title C now).2 = .error e →
      (update_note s id title C now).1 = s) := by
  constructor
  · intro e
    cases hv : validateContent C with
    | error e' => simp [create_note, hv]
    | ok u => cases u; simp [create_note, hv]
  · intro e
    cases hg : get_note_by_id s id with
    | none => simp [update_note, hg]
    | some m =>
      cases hv : validateContent C with
      | error e' => simp [update_note, hg, hv]
      | ok u => cases u; simp [update_note, hg, hv]

/-- C5 witness: a `create_note` and an `update_note` that fail validation on
the non-JSON payload "x" leave a concrete store untouched. -/
theorem failed_mutation_leaves_store_witness :
    (create_note ⟨[], 5⟩ 1 "t" "x" 0).1 = ⟨[], 5⟩ ∧
    (update_note ⟨[], 5⟩ 1 "t" "x" 0).1 = ⟨[], 5⟩ :=
  ⟨(failed_mutation_leaves_store ⟨[], 5⟩ 1 1 0 "t" "x").1 .malformedContent rfl,
   (failed_mutation_leaves_store ⟨[], 5⟩ 1 1 0 "t" "x").2 .notFound rfl⟩

-- C6 ---------------------------------------------------------------------


/-- C6 counterexample: calling `update_note` at time 99 with title and
content equal to the stored ones ("a", "0") succeeds but does not refresh
`updated_at`: SQLAlchemy's flush finds no net column change, emits no
UPDATE, and the `onupdate` default of `updated_at` never fires — the store
is bit-for-bit unchanged and the returned note still has `updated_at = 5`,
not 99.  This falsifies "refreshes updated_at ... on every such call —
including when the new title and content equal the stored ones". -/
theorem update_note_equal_values_no_refresh :
    (update_note storeW6 1 "a" "0" 99).2 = .ok noteW6 ∧
    (update_note storeW6 1 "a" "0" 99).1 = storeW6 ∧
    noteW6.updated_at = 5 :=
  ⟨rfl, rfl, rfl⟩

/-- C6 (amended): for an existing note id and validation-passing content,
`update_note` overwrites the note's title and content with the given values
and refreshes `updated_at` to the mutation time whenever the new title or
content differs from the stored ones; when both equal the stored values the
ORM emits no UPDATE and `updated_at` keeps its previous value. -/
theorem update_note_refreshes_updated_at (s : NoteStore) (id now : Nat)
    (title C : String) (n : Note)
    (hfind : get_note_by_id s id = some n)
    (hvalid : validateContent C = .ok ()) :
    ∃ n', (update_note s id title C now).2 = .ok n'
      ∧ get_note_by_id (update_note s id title C now).1 id = some n'
      ∧ n'.title = title ∧ n'.content_delta = C
      ∧ n'.updated_at =
          (if n.title = title ∧ n.content_delta = C then n.updated_at else now) := by
  have hnid : n.id = id := by simpa using List.find?_some hfind
  rw [update_note_ok s id title C now n hfind hvalid]
  refine ⟨_, rfl, get_note_by_id_replaceNote s id n _ hnid hfind, rfl, rfl, ?_⟩
  by_cases h1 : n.title = title <;> by_cases h2 : n.content_delta = C <;>
    simp [touchUpdatedAt, h1, h2]

/-- C6 witness: updating note 1 of the sample store with a different title
at time 99 refreshes `updated_at` to 99; updating it with the stored values
keeps `updated_at` at 5. -/
theorem update_note_refreshes_updated_at_witness :
    (update_note storeW6 1 "b" "0" 99).2.map Note.updated_at = .ok 99 ∧
    (update_note storeW6 1 "a" "0" 99).2.map Note.updated_at = .ok 5 := by
  constructor
  · obtain ⟨n', h1, _, _, _, h5⟩ :=
      update_note_refreshes_updated_at storeW6 1 99 "b" "0" noteW6 rfl rfl
    have hn : n'.updated_at = 99 := by
      rw [h5]; simp [noteW6]
    rw [h1]
    simp [Except.map, hn]
  · obtain ⟨n', h1, _, _, _, h5⟩ :=
      update_note_refreshes_updated_at storeW6 1 99 "a" "0" noteW6 rfl rfl
    have hn : n'.updated_at = 5 := by
      rw [h5]; simp [noteW6]
    rw [h1]
    simp [Except.map, hn]

-- C7 ---------------------------------------------------------------------

/-- C7: `delete_note` fails with NotFound exactly when no note with the id
exists (leaving the store unchanged), and hard-deletes otherwise; deleting
an existing id twice succeeds the first time and fails with NotFound the
second time, the failing call leaving the store as the first call left it. -/
theorem delete_note_spec (s : NoteStore) (id : Nat) :
    ((delete_note s id).2 = .error .notFound ↔ get_note_by_id s id = none)
    ∧ (get_note_by_id s id = none → (delete_note s id).1 = s)
    ∧ (∀ n, get_note_by_id s id = some n →
        (delete_note s id).2 = .ok true
        ∧ get_note_by_id (delete_note s id).1 id = none
        ∧ (delete_note (delete_note s id).1 id).2 = .error .notFound
        ∧ (delete_note (delete_note s id).1 id).1 = (delete_note s id).1) := by
  have hdel : ∀ (s' : NoteStore), get_note_by_id
      ({ s' with notes := s'.notes.filter fun n => !(n.id == id) } : NoteStore)
      id = none := by
    intro s'
    apply List.find?_eq_none.mpr
    intro x hx
    simpa using (List.mem_filter.mp hx).2
  refine ⟨?_, ?_, ?_⟩
  · cases hg : get_note_by_id s id with
    | none => simp [delete_note, hg]
    | some m => simp [delete_note, hg]
  · intro hg
    simp [delete_note, hg]
  · intro n hg
    have h1 : (delete_note s id).1 =
        { s with notes := s.notes.filter fun n => !(n.id == id) } := by
      simp [delete_note, hg]
    have h2 : get_note_by_id (delete_note s id).1 id = none := by
      rw [h1]; exact hdel s
    have h3 : ∀ s₂ : NoteStore, get_note_by_id s₂ id = none →
        delete_note s₂ id = (s₂, Except.error NoteErr.notFound) := by
      intro s₂ h
      simp [delete_note, h]
    exact ⟨by simp [delete_note, hg], h2,
      by rw [h3 _ h2], by rw [h3 _ h2]⟩


/-- C7 witness: double deletion of note 1 in a one-note store. -/
theorem delete_note_spec_witness :
    (delete_note storeW7 1).2 = .ok true ∧
    (delete_note (delete_note storeW7 1).1 1).2 = .error .notFound :=
  ⟨((delete_note_spec storeW7 1).2.2 noteW7 rfl).1,
   ((delete_note_spec storeW7 1).2.2 noteW7 rfl).2.2.1⟩

-- C8 ---------------------------------------------------------------------

/-- C8: `UserService.create_user` fails with DuplicateEmail when a user with
the email exists (checked first), with InvalidEmail when the email is empty
or lacks an '@', with WeakPassword when the password is shorter than 6
characters, and otherwise succeeds, the stored row holding `id`, `email`,
`created_at` and the one-way hash `hashPw password` — never the plaintext
password, which has no field in the row at all. -/
theorem create_user_spec (hashPw : String → String) (s : UserStore)
    (email password : String) (now : Nat) :
    ((create_user hashPw s email password now).2 = .error .duplicateEmail ↔
      (get_user_by_email s email).isSome = true)
    ∧ ((create_user hashPw s email password now).2 = .error .invalidEmail ↔
      (get_user_by_email s email = none ∧
        (email = "" ∨ strHasChar email '@' = false)))
    ∧ ((create_user hashPw s email password now).2 = .error .weakPassword ↔
      (get_user_by_email s email = none ∧ email ≠ "" ∧
        strHasChar email '@' = true ∧ password.length < 6))
    ∧ ((create_user hashPw s email password now).2 =
        .ok { id := s.nextId, email := email,
              password_hash := hashPw password, created_at := now } ↔
      (get_user_by_email s email = none ∧ email ≠ "" ∧
        strHasChar email '@' = true ∧ 6 ≤ password.length))
    ∧ (∀ u, (create_user hashPw s email password now).2 = .ok u →
        u.password_hash = hashPw password ∧
        (create_user hashPw s email password now).1.users = s.users ++ [u]) := by
  by_cases hdup : (get_user_by_email s email).isSome = true
  · have hne : ¬ get_user_by_email s email = none := by
      cases hg : get_user_by_email s email <;> simp [hg] at hdup ⊢
    have hc : create_user hashPw s email password now =
        (s, .error .duplicateEmail) := by
      simp [create_user, hdup]
    rw [hc]
    exact ⟨by simp [hdup], by simp [hne], by simp [hne], by simp [hne],
      by intro u h; simp at h⟩
  · have hnone : get_user_by_email s email = none := by
      cases hg : get_user_by_email s email <;> simp [hg] at hdup ⊢
    by_cases hinv : (email == "" || !(strHasChar email '@')) = true
    · have hc : create_user hashPw s email password now =
          (s, .error .invalidEmail) := by
        simp only [create_user, hdup, Bool.false_eq_true, if_false, hinv, if_true]
      have hinv' : email = "" ∨ strHasChar email '@' = false := by
        simpa using hinv
      rw [hc]
      refine ⟨by simp [hdup], by simp [hnone, hinv'], ?_, ?_, by intro u h; simp at h⟩
      · simp only [hnone, true_and]
        constructor
        · intro h; exact absurd h (by simp)
        · rintro ⟨h1, h2, _⟩
          rcases hinv' with h | h
          · exact absurd h h1
          · rw [h2] at h; exact absurd h (by simp)
      · simp only [hnone, true_and]
        constructor
        · intro h; exact absurd h (by simp)
        · rintro ⟨h1, h2, _⟩
          rcases hinv' with h | h
          · exact absurd h h1
          · rw [h2] at h; exact absurd h (by simp)
    · have hval : ¬ (email = "" ∨ strHasChar email '@' = false) := by
        simpa using hinv
      have hval1 : email ≠ "" := fun h => hval (Or.inl h)
      have hval2 : strHasChar email '@' = true := by
        cases hc : strHasChar email '@'
        · exact absurd (Or.inr hc) hval
        · rfl
      by_cases hweak : (password == "" || password.length < 6) = true
      · have hlen : password.length < 6 := by
          rcases (by simpa using hweak : password = "" ∨ password.length < 6)
            with h | h
          · rw [h]; simp
          · exact h
        have hc : create_user hashPw s email password now =
            (s, .error .weakPassword) := by
          simp only [create_user, hdup, Bool.false_eq_true, if_false, hinv,
            hweak, if_true]
        rw [hc]
        refine ⟨by simp [hdup], by simp [hval], by simp [hnone, hval1, hval2, hlen],
          by simp [Nat.not_le.mpr hlen], by intro u h; simp at h⟩
      · have hlen : 6 ≤ password.length := by
          rcases Nat.lt_or_ge password.length 6 with h | h
          · exact absurd (by simp [h]) hweak
          · exact h
        have hc : create_user hashPw s email password now =
            (⟨s.users ++ [⟨s.nextId, email, hashPw password, now⟩], s.nextId + 1⟩,
             .ok ⟨s.nextId, email, hashPw password, now⟩) := by
          simp only [create_user, hdup, Bool.false_eq_true, if_false, hinv, hweak]
        rw [hc]
        refine ⟨by simp [hdup], by simp [hval], by simp [Nat.not_lt.mpr hlen],
          by simp [hnone, hval1, hval2, hlen], ?_⟩
        intro u h
        simp only [Except.ok.injEq] at h
        subst h
        exact ⟨rfl, rfl⟩

/-- C8 witness: with a store already holding "a@b.com": a short password is
rejected as WeakPassword, re-registration of "a@b.com" as DuplicateEmail,
"nosign" as InvalidEmail, and a fresh valid registration stores the hash of
the password. -/
theorem create_user_spec_witness :
    (create_user (fun p => "h:" ++ p) ⟨[⟨1, "a@b.com", "h:longenough", 0⟩], 2⟩
      "a@b.com" "longenough" 3).2 = .error .duplicateEmail ∧
    (create_user (fun p => "h:" ++ p) ⟨[⟨1, "a@b.com", "h:longenough", 0⟩], 2⟩
      "nosign" "longenough" 3).2 = .error .invalidEmail ∧
    (create_user (fun p => "h:" ++ p) ⟨[⟨1, "a@b.com", "h:longenough", 0⟩], 2⟩
      "c@d.com" "short" 3).2 = .error .weakPassword ∧
    (create_user (fun p => "h:" ++ p) ⟨[⟨1, "a@b.com", "h:longenough", 0⟩], 2⟩
      "c@d.com" "longenough" 3).2 =
      .ok ⟨2, "c@d.com", "h:longenough", 3⟩ := by
  refine ⟨?_, ?_, ?_, ?_⟩
  · exact (create_user_spec (fun p => "h:" ++ p)
      ⟨[⟨1, "a@b.com", "h:longenough", 0⟩], 2⟩ "a@b.com" "longenough" 3).1.mpr
      (by decide)
  · exact (create_user_spec (fun p => "h:" ++ p)
      ⟨[⟨1, "a@b.com", "h:longenough", 0⟩], 2⟩ "nosign" "longenough" 3).2.1.mpr
      (by decide)
  · exact (create_user_spec (fun p => "h:" ++ p)
      ⟨[⟨1, "a@b.com", "h:longenough", 0⟩], 2⟩ "c@d.com" "short" 3).2.2.1.mpr
      (by decide)
  · exact (create_user_spec (fun p => "h:" ++ p)
      ⟨[⟨1, "a@b.com", "h:longenough", 0⟩], 2⟩ "c@d.com" "longenough" 3).2.2.2.1.mpr
      (by decide)

-- C9 ---------------------------------------------------------------------

/-- C9: `share_note` and `unshare_note` mutate only the sharing state of the
targeted note: the note keeps its title, content, owner and creation time,
and every other note of the store is untouched. -/
theorem share_unshare_frame (s : NoteStore) (id : Nat) (tok : String)
    (now : Nat) (n : Note) (hfind : get_note_by_id s id = some n) :
    (∃ n', get_note_by_id (share_note s id tok now).1 id = some n'
        ∧ n'.title = n.title ∧ n'.content_delta = n.content_delta
        ∧ n'.user_id = n.user_id ∧ n'.created_at = n.created_at)
    ∧ (∃ n', get_note_by_id (unshare_note s id now).1 id = some n'
        ∧ n'.title = n.title ∧ n'.content_delta = n.content_delta
        ∧ n'.user_id = n.user_id ∧ n'.created_at = n.created_at)
    ∧ (∀ m ∈ s.notes, m.id ≠ id →
        m ∈ (share_note s id tok now).1.notes ∧
        m ∈ (unshare_note s id now).1.notes) := by
  have hnid : n.id = id := by simpa using List.find?_some hfind
  refine ⟨?_, ?_, ?_⟩
  · rw [share_note_ok s id tok now n hfind]
    exact ⟨_, get_note_by_id_replaceNote s id n _ hnid hfind, rfl, rfl, rfl, rfl⟩
  · rw [unshare_note_ok s id now n hfind]
    exact ⟨_, get_note_by_id_replaceNote s id n _ hnid hfind, rfl, rfl, rfl, rfl⟩
  · intro m hm hmid
    rw [share_note_ok s id tok now n hfind, unshare_note_ok s id now n hfind]
    constructor <;>
    · simp only [replaceNote, List.mem_map]
      exact ⟨m, hm, by simp [hmid]⟩


/-- C9 witness: sharing then unsharing note 1 of the sample store leaves the
untargeted note 2 in the store untouched. -/
theorem share_unshare_frame_witness :
    noteW9b ∈ (share_note storeW9 1 "TK" 4).1.notes ∧
    noteW9b ∈ (unshare_note storeW9 1 4).1.notes :=
  (share_unshare_frame storeW9 1 "TK" 4 noteW9 rfl).2.2 noteW9b
    (by simp [storeW9]) (by decide)

-- C10 --------------------------------------------------------------------

/-- C10: a successful `update_note` leaves the targeted note's sharing state
unchanged — `is_shared`, `share_token`, `user_id` and `created_at` keep
their prior values — so a note resolvable via `get_note_by_token` before the
update remains resolvable with the same token afterwards. -/
theorem update_note_preserves_sharing (s : NoteStore) (id now : Nat)
    (title C : String) (n : Note)
    (hfind : get_note_by_id s id = some n)
    (hvalid : validateContent C = .ok ()) :
    ∃ n', (update_note s id title C now).2 = .ok n'
      ∧ get_note_by_id (update_note s id title C now).1 id = some n'
      ∧ n'.is_shared = n.is_shared ∧ n'.share_token = n.share_token
      ∧ n'.user_id = n.user_id ∧ n'.created_at = n.created_at
      ∧ (∀ t, get_note_by_token s t = some n →
          get_note_by_token (update_note s id title C now).1 t = some n') := by
  have hnid : n.id = id := by simpa using List.find?_some hfind
  rw [update_note_ok s id title C now n hfind hvalid]
  refine ⟨_, rfl, get_note_by_id_replaceNote s id n _ hnid hfind,
    rfl, rfl, rfl, rfl, ?_⟩
  intro t ht
  apply get_note_by_token_replaceNote_some s id t n _ ht hnid
  simpa [tokenMatch] using List.find?_some ht


/-- C10 witness: after updating the shared note 1 with new title "b" and new
content "1", its token "T" still resolves. -/
theorem update_note_preserves_sharing_witness :
    (get_note_by_token (update_note storeW10 1 "b" "1" 9).1 "T").isSome = true := by
  obtain ⟨n', _, _, _, _, _, _, h7⟩ :=
    update_note_preserves_sharing storeW10 1 9 "b" "1" noteW10 rfl rfl
  rw [h7 "T" rfl]
  rfl

-- Sanity checks of the JSON model against observed `json.loads` behaviour.
example : jsonParses "3" = true := by decide
example : jsonParses "not a valid json" = false := by decide
example : jsonParses "null" = true := by decide
example : jsonParses " [1, 2.5e3, \"a\\n\", \x7b\"k\": true\x7d, NaN, -Infinity] " = true := by decide
example : jsonParses "[1,]" = false := by decide
example : jsonParses "1." = false := by decide
example : jsonParses "01" = false := by decide
example : jsonParses "\x7b\x7d" = true := by decide
example : jsonParses "\x7b\"a\":1,\"a\":2\x7d" = true := by decide
example : jsonParses "\"\\u12aF\"" = true := by decide
example : jsonParses "\"\\q\"" = false := by decide
example : jsonParses "truex" = false := by decide
example : jsonParses "" = false := by decide
example : validateContent "3" = .ok () := rfl

end FlaskNotes
